import Mathlib

/-!
Shallow embedding of `src/onvif/src/soap/auth/digest.rs`: the client-side
HTTP Digest authentication retry state machine (`Digest` struct, its `State`
enum, the methods `new`, `set_401`, `is_failed`, `add_headers`, and the free
function `digest_auth`).

Modelling conventions:
- Header values (`reqwest::header::HeaderValue`) are byte sequences,
  modelled as `List Nat`.  `HeaderValue::to_str` fails when a byte is not
  visible ASCII (nor TAB); the error's display text is
  "failed to convert header to a str".
- A `reqwest::Response` is consumed only through
  `headers().get_all(WWW_AUTHENTICATE)`, which yields the repeated header
  occurrences in original order; the model keeps exactly that list.
- A `reqwest::RequestBuilder` is consumed only through `.header(name, value)`,
  which appends a header; the model keeps the list of appended headers.
- The external `digest_auth` crate (`AuthContext`, `parse`, `respond`,
  `HttpMethod`) is a trusted collaborator: `parse`/`respond` are injected as a
  `DigestLib` record and the embedded functions are parametric in it.
  `AuthContext::new` defaults the method field to `GET`; the source then
  overwrites it with `POST`.
- Methods taking `&self` in Rust (`is_failed`, `add_headers`) cannot mutate
  the receiver; they are embedded as functions that do not return a new
  `Digest`.  `set_401` takes `&mut self` and is embedded state-passing style.
-/

namespace OnvifDigest

/-- A header value as raw bytes (`reqwest::header::HeaderValue`). -/
abbrev HeaderBytes := List Nat

/-- A byte that `HeaderValue::to_str` accepts: visible ASCII or TAB. -/
def validByte (b : Nat) : Bool := b == 9 || (decide (32 ≤ b) && decide (b < 127))

/-- `HeaderValue::to_str`: succeeds (returning the same bytes, read as text)
iff every byte is visible ASCII; otherwise fails with the conversion
diagnostic. -/
def toStr (v : HeaderBytes) : Except String HeaderBytes :=
  if v.all validByte then .ok v else .error "failed to convert header to a str"

/-- `u8::to_ascii_lowercase` on one byte. -/
def lowerByte (b : Nat) : Nat := if 65 ≤ b ∧ b ≤ 90 then b + 32 else b

/-- `str::to_ascii_lowercase`. -/
def lowerBytes (v : HeaderBytes) : HeaderBytes := v.map lowerByte

/-- The bytes of a (ASCII) string literal. -/
def strBytes (s : String) : HeaderBytes := s.toList.map Char.toNat

/-- `s` begins with `needle` (byte-wise). -/
def beginsWith : HeaderBytes → HeaderBytes → Bool
  | [], _ => true
  | _ :: _, [] => false
  | a :: as, b :: bs => a == b && beginsWith as bs

/-- `str::contains(needle)`: `needle` occurs as a contiguous substring. -/
def containsSub (needle : HeaderBytes) : HeaderBytes → Bool
  | [] => beginsWith needle []
  | b :: rest => beginsWith needle (b :: rest) || containsSub needle rest

/-- `crate::soap::client::Credentials`. -/
structure Credentials where
  username : String
  password : String
deriving DecidableEq

/-- `url::Url`, kept as its components; `Url::path` returns the path
component only. -/
structure Url where
  scheme : String
  host : String
  path : String
  query : String
deriving DecidableEq

/-- `reqwest::Response`, restricted to what the module consumes: the
`WWW-Authenticate` header occurrences in original order. -/
structure Response where
  wwwAuthenticate : List HeaderBytes
deriving DecidableEq

/-- `reqwest::RequestBuilder`, restricted to what the module touches: the
headers set so far; `.header` appends. -/
structure RequestBuilder where
  headers : List (String × String)
deriving DecidableEq

/-- `RequestBuilder::header(name, value)`. -/
def RequestBuilder.header (r : RequestBuilder) (name value : String) : RequestBuilder :=
  ⟨r.headers ++ [(name, value)]⟩

/-- The module's error enum. -/
inductive Error where
  | InvalidState
  | NoCredentials
  | Digest (msg : String)
deriving DecidableEq

/-- `digest_auth::HttpMethod` (only the variants this module can produce). -/
inductive HttpMethod where
  | GET
  | POST
deriving DecidableEq

/-- `digest_auth::AuthContext`, restricted to the fields this module sets. -/
structure AuthContext where
  username : String
  password : String
  uri : String
  method : HttpMethod
deriving DecidableEq

/-- `digest_auth::AuthContext::new(username, password, uri)`: the crate
defaults the method field to `GET`. -/
def AuthContext.new (username password uri : String) : AuthContext :=
  ⟨username, password, uri, .GET⟩

/-- The trusted challenge-parsing collaborator (`digest_auth::parse` and
`DigestResponse::respond`∘`to_string`), injected so the retry logic is
parametric in it; `χ` is its challenge type. -/
structure DigestLib (χ : Type) where
  parse : HeaderBytes → Except String χ
  respond : χ → AuthContext → Except String String

/-- The `State` enum: `Default`, `Got401(Response)`, `Got401Twice`. -/
inductive State where
  | Default
  | Got401 (response : Response)
  | Got401Twice
deriving DecidableEq

/-- The `Digest` negotiator struct. -/
structure Digest where
  creds : Option Credentials
  uri : Url
  state : State
deriving DecidableEq

/-- `Digest::new(uri, creds)`. -/
def Digest.new (uri : Url) (creds : Option Credentials) : Digest :=
  { creds := creds, uri := uri, state := .Default }

/-- `Digest::set_401(response)`: the `match self.state` in lines 40–46. -/
def Digest.set_401 (d : Digest) (response : Response) : Digest :=
  match d.state with
  | .Default => { d with state := .Got401 response }
  | .Got401 _ => { d with state := .Got401Twice }
  | .Got401Twice => d

/-- `Digest::is_failed`: `matches!(self.state, State::Got401Twice)`. -/
def Digest.is_failed (d : Digest) : Bool :=
  match d.state with
  | .Got401Twice => true
  | _ => false

/-- The three needles of the tier loop `["algorithm=sha", "algorithm=md5",
"digest"]` in `digest_auth`. -/
def tierNeedles : List HeaderBytes :=
  [strBytes "algorithm=sha", strBytes "algorithm=md5", strBytes "digest"]

/-- The inner loop of `digest_auth` for one needle: scan the header
occurrences in order; `to_str` failure aborts; the first header whose
lowercased text contains the needle is selected. -/
def scanTier (needle : HeaderBytes) : List HeaderBytes → Except String (Option HeaderBytes)
  | [] => .ok none
  | h :: rest =>
    match toStr h with
    | .error e => .error e
    | .ok s =>
      if containsSub needle (lowerBytes s) then .ok (some s)
      else scanTier needle rest

/-- The outer loop of `digest_auth`: try each needle in tier order, stopping
at the first tier that selects a header. -/
def selectTiers (headers : List HeaderBytes) : List HeaderBytes → Except String (Option HeaderBytes)
  | [] => .ok none
  | needle :: rest =>
    match scanTier needle headers with
    | .error e => .error e
    | .ok (some s) => .ok (some s)
    | .ok none => selectTiers headers rest

/-- The whole header-selection phase of `digest_auth` (lines 71–88). -/
def selectWwwAuthenticate (headers : List HeaderBytes) : Except String (Option HeaderBytes) :=
  selectTiers headers tierNeedles

/-- `digest_auth(res, creds, url)` (lines 70–103), parametric in the trusted
challenge library. -/
def digest_auth {χ : Type} (lib : DigestLib χ) (res : Response) (creds : Credentials)
    (url : Url) : Except Error String :=
  match selectWwwAuthenticate res.wwwAuthenticate with
  | .error e => .error (.Digest e)
  | .ok none => .error (.Digest "No www-authenticate digest header")
  | .ok (some www_authenticate) =>
    let context : AuthContext :=
      { AuthContext.new creds.username creds.password url.path with method := .POST }
    match lib.parse www_authenticate with
    | .error e => .error (.Digest e)
    | .ok challenge =>
      match lib.respond challenge context with
      | .error e => .error (.Digest e)
      | .ok s => .ok s

/-- `Digest::add_headers(request)` (lines 52–67). -/
def Digest.add_headers {χ : Type} (lib : DigestLib χ) (d : Digest)
    (request : RequestBuilder) : Except Error RequestBuilder :=
  match d.state with
  | .Default => .ok request
  | .Got401 response =>
    match d.creds with
    | none => .error .NoCredentials
    | some creds =>
      match digest_auth lib response creds d.uri with
      | .error e => .error e
      | .ok value => .ok (request.header "authorization" value)
  | .Got401Twice => .error .InvalidState

instance {ε α : Type} [DecidableEq ε] [DecidableEq α] : DecidableEq (Except ε α)
  | .ok a, .ok b =>
    if h : a = b then .isTrue (by rw [h]) else .isFalse (by intro he; cases he; exact h rfl)
  | .ok _, .error _ => .isFalse (by intro he; cases he)
  | .error _, .ok _ => .isFalse (by intro he; cases he)
  | .error e, .error e' =>
    if h : e = e' then .isTrue (by rw [h]) else .isFalse (by intro he; cases he; exact h rfl)

/-- The response retained in memory by the negotiator: exactly the payload of
the `Got401` variant. -/
def Digest.retainedResponse (d : Digest) : Option Response :=
  match d.state with
  | .Got401 response => some response
  | _ => none

/-- Position of a state along the `Default → Got401 → Got401Twice`
progression, for phrasing "never regresses". -/
def stateRank : State → Nat
  | .Default => 0
  | .Got401 _ => 1
  | .Got401Twice => 2

/-- Feed a sequence of 401 responses to the negotiator, one `set_401` call
per list element, in order. -/
def runSet401 (d : Digest) : List Response → Digest
  | [] => d
  | r :: rs => runSet401 (d.set_401 r) rs

/-- One call of the negotiator's public API, for frame reasoning. -/
inductive Op where
  | notify401 (response : Response)
  | addHeaders (request : RequestBuilder)
  | checkFailed

/-- Whether an operation is the 401 notification. -/
def Op.isNotify : Op → Bool
  | .notify401 _ => true
  | _ => false

/-- The negotiator state after one API call.  `set_401` takes `&mut self`
and is the state transition of lines 40–46; `is_failed` and `add_headers`
take `&self` (no interior mutability anywhere in the struct), so they leave
the receiver untouched. -/
def Digest.run1 (d : Digest) : Op → Digest
  | .notify401 response => d.set_401 response
  | .addHeaders _ => d
  | .checkFailed => d

/-- The negotiator state after a sequence of API calls. -/
def runOps (d : Digest) : List Op → Digest
  | [] => d
  | op :: ops => runOps (d.run1 op) ops

/-- A header occurrence matches one preference tier: its value converts to
text and the lowercased text contains the tier's needle. -/
def matchesTier (needle : HeaderBytes) (h : HeaderBytes) : Bool :=
  match toStr h with
  | .ok s => containsSub needle (lowerBytes s)
  | .error _ => false

/-- A header occurrence matches at least one of the three preference tiers. -/
def matchesAnyTier (h : HeaderBytes) : Bool :=
  tierNeedles.any (fun needle => matchesTier needle h)

/-- Modelled from the spec's words (§4.1 step 2), for refinement comparison
with `selectWwwAuthenticate`: three preference tiers — SHA-family first, then
MD5, then any header containing "digest" — and within each tier the first
matching header in original order wins. -/
def selectSpec (headers : List HeaderBytes) : Option HeaderBytes :=
  match headers.find? (fun h => containsSub (strBytes "algorithm=sha") (lowerBytes h)) with
  | some h => some h
  | none =>
    match headers.find? (fun h => containsSub (strBytes "algorithm=md5") (lowerBytes h)) with
    | some h => some h
    | none => headers.find? (fun h => containsSub (strBytes "digest") (lowerBytes h))

/-- Display name of an `HttpMethod`. -/
def methodName : HttpMethod → String
  | .GET => "GET"
  | .POST => "POST"

/-- Injective rendering of an `AuthContext`, used by `recordLib` to expose
which context `digest_auth` hands to the challenge library. -/
def encodeCtx (ctx : AuthContext) : String :=
  ctx.username ++ "|" ++ ctx.password ++ "|" ++ ctx.uri ++ "|" ++ methodName ctx.method

/-- A challenge library whose response string records the computation
context it received; its challenge type is the selected header itself. -/
def recordLib : DigestLib HeaderBytes where
  parse := fun h => .ok h
  respond := fun _ ctx => .ok (encodeCtx ctx)

/-- A challenge library that always succeeds with a fixed response string. -/
def okLib : DigestLib Unit where
  parse := fun _ => .ok ()
  respond := fun _ _ => .ok "digest-response"

/-- Concrete sample values for witnesses and counterexamples. -/
def url0 : Url := ⟨"https", "cam.local", "/onvif/device_service", ""⟩

def creds0 : Credentials := ⟨"alice", "secret"⟩

def req0 : RequestBuilder := ⟨[]⟩

/-- A well-formed MD5 digest challenge header. -/
def mdHdr : HeaderBytes := strBytes "Digest realm=\"onvif\", nonce=\"abc\", algorithm=MD5"

/-- A well-formed SHA-256 digest challenge header. -/
def shaHdr : HeaderBytes := strBytes "Digest realm=\"onvif\", nonce=\"abc\", algorithm=SHA-256"

/-- A header value that is not valid text (BEL is not visible ASCII). -/
def badHdr : HeaderBytes := [7]

/-- `set_401` rewrites only the `state` field: credentials and target URL
survive every transition. -/
theorem set_401_preserves_creds_uri (d : Digest) (r : Response) :
    (d.set_401 r).creds = d.creds ∧ (d.set_401 r).uri = d.uri := by
  obtain ⟨c, u, s⟩ := d
  cases s <;> simp [Digest.set_401]

/-- Once terminal, any further sequence of 401 notifications is a no-op. -/
theorem runSet401_terminal (d : Digest) (hs : d.state = State.Got401Twice)
    (rs : List Response) : runSet401 d rs = d := by
  induction rs generalizing d with
  | nil => rfl
  | cons r rs ih =>
    have hset : d.set_401 r = d := by
      obtain ⟨c, u, s⟩ := d
      cases s <;> simp_all [Digest.set_401]
    rw [runSet401, hset]
    exact ih d hs

/-- Prefix-of-a-prefix is a prefix. -/
theorem beginsWith_trans (a b c : HeaderBytes) (h1 : beginsWith a b = true)
    (h2 : beginsWith b c = true) : beginsWith a c = true := by
  induction a generalizing b c with
  | nil => rfl
  | cons x xs ih =>
    cases b with
    | nil => simp [beginsWith] at h1
    | cons y ys =>
      cases c with
      | nil => simp [beginsWith] at h2
      | cons z zs =>
        simp [beginsWith] at h1 h2 ⊢
        exact ⟨h1.1.trans h2.1, ih ys zs h1.2 h2.2⟩

/-- If the needle `n₁` is a prefix of `n₂`, any occurrence of `n₂` yields an
occurrence of `n₁` (used for `algorithm=sha` inside `algorithm=sha-256`). -/
theorem containsSub_mono (n₁ n₂ s : HeaderBytes) (hp : beginsWith n₁ n₂ = true)
    (hc : containsSub n₂ s = true) : containsSub n₁ s = true := by
  induction s with
  | nil =>
    cases n₂ with
    | nil =>
      cases n₁ with
      | nil => rfl
      | cons x xs => simp [beginsWith] at hp
    | cons y ys => simp [containsSub, beginsWith] at hc
  | cons b rest ih =>
    rw [containsSub, Bool.or_eq_true] at hc ⊢
    cases hc with
    | inl hb => exact Or.inl (beginsWith_trans _ _ _ hp hb)
    | inr hr => exact Or.inr (ih hr)

/-- On all-text header lists, one tier's scan is exactly `List.find?` of the
needle-containment test, in original order. -/
theorem scanTier_eq_find (needle : HeaderBytes) (hs : List HeaderBytes)
    (hv : ∀ h ∈ hs, h.all validByte = true) :
    scanTier needle hs = .ok (hs.find? (fun h => containsSub needle (lowerBytes h))) := by
  induction hs with
  | nil => rfl
  | cons h rest ih =>
    have hh : h.all validByte = true := hv h (List.mem_cons_self h rest)
    have hrest := ih (fun h' hm => hv h' (List.mem_cons_of_mem h hm))
    rw [scanTier, toStr, if_pos hh]
    cases hc : containsSub needle (lowerBytes h) with
    | true => simp [hc, List.find?_cons_of_pos _ hc]
    | false => simp [hc, List.find?_cons_of_neg, hrest]

/-- Refinement: on all-text header lists, the source's selection loop
computes the spec's three-tier first-match function. -/
theorem selectWwwAuthenticate_valid (hs : List HeaderBytes)
    (hv : ∀ h ∈ hs, h.all validByte = true) :
    selectWwwAuthenticate hs = .ok (selectSpec hs) := by
  rw [selectWwwAuthenticate, tierNeedles, selectTiers, scanTier_eq_find _ _ hv]
  rw [selectSpec]
  cases h1 : hs.find? (fun h => containsSub (strBytes "algorithm=sha") (lowerBytes h)) with
  | some s => rfl
  | none =>
    rw [selectTiers, scanTier_eq_find _ _ hv]
    cases h2 : hs.find? (fun h => containsSub (strBytes "algorithm=md5") (lowerBytes h)) with
    | some s => rfl
    | none =>
      rw [selectTiers, scanTier_eq_find _ _ hv]
      cases h3 : hs.find? (fun h => containsSub (strBytes "digest") (lowerBytes h)) with
      | some s => rfl
      | none => rfl

/-- When every header is valid text and none matches any tier, the spec-side
selection returns nothing. -/
theorem selectSpec_eq_none (hs : List HeaderBytes)
    (hv : ∀ h ∈ hs, h.all validByte = true)
    (hm : ∀ h ∈ hs, matchesAnyTier h = false) : selectSpec hs = none := by
  have key : ∀ needle ∈ tierNeedles, ∀ h ∈ hs,
      containsSub needle (lowerBytes h) = false := by
    intro needle hn h hh
    have := hm h hh
    rw [matchesAnyTier] at this
    have hfalse : matchesTier needle h = false := by
      by_contra hcon
      rw [Bool.not_eq_false] at hcon
      have : tierNeedles.any (fun n => matchesTier n h) = true :=
        List.any_eq_true.mpr ⟨needle, hn, hcon⟩
      simp_all
    rw [matchesTier, toStr, if_pos (hv h hh)] at hfalse
    exact hfalse
  have f1 : hs.find? (fun h => containsSub (strBytes "algorithm=sha") (lowerBytes h)) = none :=
    List.find?_eq_none.mpr (fun h hh => by
      simp [key (strBytes "algorithm=sha") (by simp [tierNeedles]) h hh])
  have f2 : hs.find? (fun h => containsSub (strBytes "algorithm=md5") (lowerBytes h)) = none :=
    List.find?_eq_none.mpr (fun h hh => by
      simp [key (strBytes "algorithm=md5") (by simp [tierNeedles]) h hh])
  have f3 : hs.find? (fun h => containsSub (strBytes "digest") (lowerBytes h)) = none :=
    List.find?_eq_none.mpr (fun h hh => by
      simp [key (strBytes "digest") (by simp [tierNeedles]) h hh])
  rw [selectSpec, f1, f2, f3]

/-- A tier scan aborts with the conversion diagnostic when it reaches a
non-text occurrence, provided no earlier occurrence matched the needle. -/
theorem scanTier_hits_invalid (needle : HeaderBytes) (pre post : List HeaderBytes)
    (bad : HeaderBytes) (hbad : bad.all validByte = false)
    (hpre : ∀ h ∈ pre, h.all validByte = true
            ∧ containsSub needle (lowerBytes h) = false) :
    scanTier needle (pre ++ bad :: post) = .error "failed to convert header to a str" := by
  induction pre with
  | nil => simp [scanTier, toStr, hbad]
  | cons h rest ih =>
    obtain ⟨h1, h2⟩ := hpre h (List.mem_cons_self h rest)
    have ih' := ih (fun h' hm => hpre h' (List.mem_cons_of_mem h hm))
    simp [scanTier, toStr, h1, h2, ih']

/-- C1: for every sequence of `set_401` calls on one negotiator, the state
advances `Default → Got401(response)` on the first call (that response is
retained), `Got401 → Got401Twice` on the second (the retained response is
discarded and none is retained in the terminal state), every third and
subsequent call is a no-op leaving the state terminal, and the state never
regresses to an earlier variant. -/
theorem claim_C1 (u : Url) (c : Option Credentials) (r₁ r₂ : Response)
    (rs : List Response) :
    (Digest.new u c).state = State.Default
    ∧ ((Digest.new u c).set_401 r₁).state = State.Got401 r₁
    ∧ ((Digest.new u c).set_401 r₁).retainedResponse = some r₁
    ∧ (((Digest.new u c).set_401 r₁).set_401 r₂).state = State.Got401Twice
    ∧ (((Digest.new u c).set_401 r₁).set_401 r₂).retainedResponse = none
    ∧ runSet401 (((Digest.new u c).set_401 r₁).set_401 r₂) rs
        = ((Digest.new u c).set_401 r₁).set_401 r₂
    ∧ ∀ (d : Digest) (r : Response), stateRank d.state ≤ stateRank ((d.set_401 r).state) := by
  refine ⟨rfl, rfl, rfl, rfl, rfl, runSet401_terminal _ rfl rs, ?_⟩
  intro d r
  obtain ⟨c', u', s⟩ := d
  cases s <;> simp [Digest.set_401, stateRank]

/-- C2: on every list of `WWW-Authenticate` header text values, selection
proceeds in three preference tiers (SHA-family token, then MD5 token, then
the substring "digest", all case-insensitive), the first matching header in
original order winning within each tier; in particular, given one header
containing "algorithm=MD5" (and no SHA token) and one containing
"algorithm=SHA-256", the SHA-256 header is selected regardless of order. -/
theorem claim_C2 :
    (∀ (headers : List HeaderBytes), (∀ h ∈ headers, h.all validByte = true) →
      selectWwwAuthenticate headers = .ok (selectSpec headers))
    ∧ (∀ (h₁ h₂ : HeaderBytes),
        h₁.all validByte = true → h₂.all validByte = true →
        containsSub (strBytes "algorithm=md5") (lowerBytes h₁) = true →
        containsSub (strBytes "algorithm=sha") (lowerBytes h₁) = false →
        containsSub (strBytes "algorithm=sha-256") (lowerBytes h₂) = true →
        selectWwwAuthenticate [h₁, h₂] = .ok (some h₂)
        ∧ selectWwwAuthenticate [h₂, h₁] = .ok (some h₂)) := by
  refine ⟨selectWwwAuthenticate_valid, ?_⟩
  intro h₁ h₂ hv₁ hv₂ hmd5 hnosha hsha256
  have hsha : containsSub (strBytes "algorithm=sha") (lowerBytes h₂) = true :=
    containsSub_mono _ _ _ (by decide) hsha256
  have hv12 : ∀ h ∈ [h₁, h₂], h.all validByte = true := by
    intro h hm
    rcases hm with _ | ⟨_, hm⟩
    · exact hv₁
    · rcases hm with _ | ⟨_, hm⟩
      · exact hv₂
      · cases hm
  have hv21 : ∀ h ∈ [h₂, h₁], h.all validByte = true := by
    intro h hm
    rcases hm with _ | ⟨_, hm⟩
    · exact hv₂
    · rcases hm with _ | ⟨_, hm⟩
      · exact hv₁
      · cases hm
  constructor
  · rw [selectWwwAuthenticate_valid _ hv12, selectSpec]
    simp [List.find?, hnosha, hsha]
  · rw [selectWwwAuthenticate_valid _ hv21, selectSpec]
    simp [List.find?, hsha]

/-- Witness for C2 at concrete MD5 and SHA-256 challenge headers. -/
theorem claim_C2_witness :
    selectWwwAuthenticate [mdHdr, shaHdr] = .ok (some shaHdr)
    ∧ selectWwwAuthenticate [shaHdr, mdHdr] = .ok (some shaHdr) :=
  claim_C2.2 mdHdr shaHdr (by decide) (by decide) (by decide) (by decide) (by decide)

/-- C3: whenever the negotiator is terminal (`is_failed` returns true),
`add_headers` fails with `InvalidState` for every request, every challenge
library, and regardless of credentials or earlier header content. -/
theorem claim_C3 (χ : Type) (lib : DigestLib χ) (d : Digest) (req : RequestBuilder)
    (h : d.is_failed = true) : d.add_headers lib req = .error .InvalidState := by
  obtain ⟨c, u, s⟩ := d
  cases s with
  | Default => simp [Digest.is_failed] at h
  | Got401 r => simp [Digest.is_failed] at h
  | Got401Twice => rfl

/-- Witness for C3 at a concrete terminal negotiator. -/
theorem claim_C3_witness :
    (Digest.mk none url0 State.Got401Twice).is_failed = true
    ∧ (Digest.mk none url0 State.Got401Twice).add_headers okLib req0
        = .error .InvalidState :=
  ⟨rfl, claim_C3 Unit okLib _ req0 rfl⟩

/-- C4: on a freshly constructed negotiator (state `Default`), `add_headers`
always succeeds and returns the input request unchanged, for every request
and both present and absent credentials. -/
theorem claim_C4 (χ : Type) (lib : DigestLib χ) (u : Url) (c : Option Credentials)
    (req : RequestBuilder) : (Digest.new u c).add_headers lib req = .ok req := rfl

/-- C5: in state `Got401` with no credentials configured, `add_headers`
fails with `NoCredentials` for every request and every retained response
(the check precedes any examination of the response's headers, so it fires
even for a response with no digest header at all). -/
theorem claim_C5 (χ : Type) (lib : DigestLib χ) (u : Url) (res : Response)
    (req : RequestBuilder) :
    (Digest.mk none u (State.Got401 res)).add_headers lib req = .error .NoCredentials := rfl

/-- C6 (amended): in state `Got401` with credentials present, when every
`WWW-Authenticate` occurrence on the retained response is valid text and
none matches any of the three preference tiers (in particular when there
are zero occurrences), `add_headers` fails with
`Digest "No www-authenticate digest header"`. -/
theorem claim_C6 (χ : Type) (lib : DigestLib χ) (u : Url)
    (creds : Credentials) (hs : List HeaderBytes) (req : RequestBuilder)
    (hv : ∀ h ∈ hs, h.all validByte = true)
    (hm : ∀ h ∈ hs, matchesAnyTier h = false) :
    (Digest.mk (some creds) u (State.Got401 ⟨hs⟩)).add_headers lib req
      = .error (.Digest "No www-authenticate digest header") := by
  have hsel : selectWwwAuthenticate hs = .ok none := by
    rw [selectWwwAuthenticate_valid _ hv, selectSpec_eq_none _ hv hm]
  simp [Digest.add_headers, digest_auth, hsel]

/-- Witness for C6 at a retained response with zero header occurrences. -/
theorem claim_C6_witness :
    (Digest.mk (some creds0) url0 (State.Got401 ⟨[]⟩)).add_headers okLib req0
      = .error (.Digest "No www-authenticate digest header") :=
  claim_C6 Unit okLib url0 creds0 [] req0 (by simp) (by simp)

/-- Counterexample to C6 as stated: a single non-text header occurrence
matches no tier, yet `add_headers` fails with the text-conversion
diagnostic, not with `Digest "No www-authenticate digest header"`. -/
theorem claim_C6_counterexample :
    matchesAnyTier badHdr = false
    ∧ (Digest.mk (some creds0) url0 (State.Got401 ⟨[badHdr]⟩)).add_headers okLib req0
        = .error (.Digest "failed to convert header to a str")
    ∧ (Digest.mk (some creds0) url0 (State.Got401 ⟨[badHdr]⟩)).add_headers okLib req0
        ≠ .error (.Digest "No www-authenticate digest header") :=
  ⟨by decide, by decide, by decide⟩

/-- C7: the digest computation context is built from the credential
username and password, the path component only of the target URL (the
result is unchanged under any variation of the URL that keeps the path),
and the fixed method `POST` as the method-binding field, for every
credential pair, URL and retained response on which a header is selected. -/
theorem claim_C7 (creds : Credentials) (url : Url) (res : Response) (h : HeaderBytes)
    (hsel : selectWwwAuthenticate res.wwwAuthenticate = .ok (some h)) :
    digest_auth recordLib res creds url
      = .ok (encodeCtx ⟨creds.username, creds.password, url.path, HttpMethod.POST⟩)
    ∧ ∀ (χ : Type) (lib : DigestLib χ) (url' : Url), url'.path = url.path →
        digest_auth lib res creds url' = digest_auth lib res creds url := by
  constructor
  · simp [digest_auth, hsel, recordLib, AuthContext.new]
  · intro χ lib url' hp
    simp only [digest_auth, AuthContext.new, hp]

/-- Witness for C7 at a concrete SHA-256 challenge. -/
theorem claim_C7_witness :
    digest_auth recordLib ⟨[shaHdr]⟩ creds0 url0
      = .ok (encodeCtx ⟨"alice", "secret", "/onvif/device_service", HttpMethod.POST⟩) :=
  (claim_C7 creds0 url0 ⟨[shaHdr]⟩ shaHdr (by decide)).1

/-- C8 (amended): in state `Got401` with credentials, if a non-text header
occurrence is reached by the first tier's scan — i.e. every occurrence
before it is valid text and does not match the SHA needle — `add_headers`
fails with a `Digest` error carrying the conversion diagnostic. -/
theorem claim_C8 (χ : Type) (lib : DigestLib χ) (creds : Credentials)
    (u : Url) (req : RequestBuilder) (pre post : List HeaderBytes) (bad : HeaderBytes)
    (hbad : bad.all validByte = false)
    (hpre : ∀ h ∈ pre, h.all validByte = true
            ∧ containsSub (strBytes "algorithm=sha") (lowerBytes h) = false) :
    (Digest.mk (some creds) u (State.Got401 ⟨pre ++ bad :: post⟩)).add_headers lib req
      = .error (.Digest "failed to convert header to a str") := by
  have hscan := scanTier_hits_invalid (strBytes "algorithm=sha") pre post bad hbad hpre
  simp [Digest.add_headers, digest_auth, selectWwwAuthenticate, tierNeedles,
    selectTiers, hscan]

/-- Witness for C8 at a concrete non-text occurrence followed by an MD5
challenge. -/
theorem claim_C8_witness :
    (Digest.mk (some creds0) url0 (State.Got401 ⟨[badHdr, mdHdr]⟩)).add_headers okLib req0
      = .error (.Digest "failed to convert header to a str") :=
  claim_C8 Unit okLib creds0 url0 req0 [] [mdHdr] badHdr (by decide) (by simp)

/-- Counterexample to C8 as stated: when a SHA-matching header precedes the
non-text occurrence, the scan selects it before ever converting the bad
occurrence, and the operation succeeds although a non-text value is
present. -/
theorem claim_C8_counterexample :
    badHdr.all validByte = false
    ∧ (Digest.mk (some creds0) url0 (State.Got401 ⟨[shaHdr, badHdr]⟩)).add_headers okLib req0
        = .ok (req0.header "authorization" "digest-response") :=
  ⟨by decide, by decide⟩

/-- C9: `is_failed` is a pure predicate (it takes the negotiator by shared
reference and returns a boolean) that is true iff the state is
`Got401Twice`, in every state. -/
theorem claim_C9 (d : Digest) : d.is_failed = true ↔ d.state = State.Got401Twice := by
  obtain ⟨c, u, s⟩ := d
  cases s <;> simp [Digest.is_failed]

/-- C10: neither `add_headers` nor `is_failed` changes the negotiator — any
sequence of such calls leaves the whole record (state variant, retained
response, credentials, target URL) equal to the initial one; any API call
that does change the negotiator is a `set_401` notification; and even
`set_401` leaves credentials and target URL unchanged. -/
theorem claim_C10 :
    (∀ (d : Digest) (ops : List Op),
      ops.all (fun op => !op.isNotify) = true → runOps d ops = d)
    ∧ (∀ (d : Digest) (op : Op), d.run1 op ≠ d → ∃ response, op = Op.notify401 response)
    ∧ (∀ (d : Digest) (r : Response),
        (d.set_401 r).creds = d.creds ∧ (d.set_401 r).uri = d.uri) := by
  refine ⟨?_, ?_, set_401_preserves_creds_uri⟩
  · intro d ops h
    induction ops generalizing d with
    | nil => rfl
    | cons op ops ih =>
      rw [List.all_cons, Bool.and_eq_true] at h
      have hop : d.run1 op = d := by
        cases op with
        | notify401 r => simp [Op.isNotify] at h
        | addHeaders r => rfl
        | checkFailed => rfl
      rw [runOps, hop]
      exact ih d h.2
  · intro d op h
    cases op with
    | notify401 r => exact ⟨r, rfl⟩
    | addHeaders r => exact absurd rfl h
    | checkFailed => exact absurd rfl h

/-- Witness for C10 at a concrete sequence of read-only calls. -/
theorem claim_C10_witness :
    runOps (Digest.new url0 (some creds0))
      [Op.addHeaders req0, Op.checkFailed, Op.addHeaders req0]
      = Digest.new url0 (some creds0) :=
  claim_C10.1 _ _ (by decide)

end OnvifDigest
